import Mathlib

/-!
Shallow embedding of the backend service in
`src/k8s-demo_experimental/backend/index.js` (an Express + Postgres demo
with items, students, courses, attendance and role-based auth), together
with proofs of the specification claims about it.

Modelling conventions:
* Postgres tables become Lean lists of row structures inside a `Db` record;
  `SERIAL` columns become explicit `next…Id` counters (sequences advance even
  when a transaction rolls back, as in Postgres).
* JavaScript request-body values become `JValue` (null/boolean/number/string),
  with JS truthiness made explicit, so that checks such as `!course_id` and
  `typeof r.student_id !== 'number'` translate literally.
* SQL transactions become pure state passing: a handler either returns the
  updated `Db` (COMMIT) or the original row lists (ROLLBACK).
* Executing an INSERT first casts its parameters to the column types
  (`pgIntCast?`, `pgDateCast?`) and checks the `REFERENCES` constraints
  (membership in the referenced table); a failed cast or constraint makes
  the statement throw, which the handler's catch turns into a 500 response
  after ROLLBACK.  JS numbers are modelled as integers.
* The bcrypt and JWT library primitives (out of scope per the spec) are
  modelled by their contracts: an injective hash tag, and a token record
  whose verification checks the secret and the expiry window.
-/

namespace KubeDemo

/-- A JavaScript/JSON value as it appears in a request body field.
`jnull` also stands for an absent (`undefined`) property. -/
inductive JValue where
  | jnull
  | jbool (b : Bool)
  | jnum (n : Int)
  | jstr (s : String)
deriving DecidableEq, Repr

/-- JS truthiness of a `JValue` (`!x` in the source is `!x.truthy` here). -/
def JValue.truthy : JValue → Bool
  | .jnull => false
  | .jbool b => b
  | .jnum n => n != 0
  | .jstr s => s != ""

/-- `typeof v === 'number'`. -/
def JValue.isNum : JValue → Bool
  | .jnum _ => true
  | _ => false

/-- `typeof v === 'boolean'`. -/
def JValue.isBool : JValue → Bool
  | .jbool _ => true
  | _ => false

/-- The integer carried by a number value (0 elsewhere; only used under an
`isNum` guard). -/
def JValue.asInt : JValue → Int
  | .jnum n => n
  | _ => 0

/-- A row of the `items` table. -/
structure Item where
  id : Nat
  text : String
deriving DecidableEq, Repr

/-- A row of the `students` table. -/
structure Student where
  id : Nat
  name : String
deriving DecidableEq, Repr

/-- A row of the `courses` table. -/
structure Course where
  id : Nat
  name : String
deriving DecidableEq, Repr

/-- A row of the `attendance` table.  `course_id` and `date` hold the
request values after the cast to their column types (INTEGER and DATE). -/
structure AttendanceRow where
  id : Nat
  student_id : Int
  course_id : Int
  date : String
  present : Bool
  recorded_at : Nat
deriving DecidableEq, Repr

/-- A row of the `users` table. -/
structure User where
  id : Nat
  username : String
  password_hash : String
  role : String
  student_id : Option Nat
deriving DecidableEq, Repr

/-- The database: one list per table plus the `SERIAL` sequences. -/
structure Db where
  items : List Item
  nextItemId : Nat
  students : List Student
  nextStudentId : Nat
  courses : List Course
  nextCourseId : Nat
  attendance : List AttendanceRow
  nextAttendanceId : Nat
  users : List User
  nextUserId : Nat
deriving DecidableEq, Repr

/-- The empty database (all tables created, no rows; sequences at 1). -/
def Db.empty : Db :=
  { items := [], nextItemId := 1
    students := [], nextStudentId := 1
    courses := [], nextCourseId := 1
    attendance := [], nextAttendanceId := 1
    users := [], nextUserId := 1 }

/-! ### Attendance batch upsert (`POST /api/attendance`) -/

/-- One element of the `records` array of a `POST /api/attendance` body;
both properties may hold values of any JS type before validation. -/
structure RecEntry where
  student_id : JValue
  present : JValue
deriving DecidableEq, Repr

/-- The body of a `POST /api/attendance` request.  `records` is `none`
when the `records` field is not an array (`Array.isArray` fails). -/
structure AttReq where
  course_id : JValue
  date : JValue
  records : Option (List RecEntry)
deriving DecidableEq, Repr

/-- Response of the attendance handler; `serverError` is the catch branch
answering 500 'db error' after a thrown SQL statement. -/
inductive AttResp where
  | ok
  | badRequest (msg : String)
  | serverError (msg : String)
deriving DecidableEq, Repr

/-- HTTP status of an attendance-handler response. -/
def AttResp.status : AttResp → Nat
  | .ok => 200
  | .badRequest _ => 400
  | .serverError _ => 500

/-- Contract model of the Postgres cast of a request parameter into an
INTEGER column: numbers pass through (JS numbers are modelled as
integers), numeric strings parse, everything else (null, booleans,
non-numeric strings) makes the statement throw. -/
def pgIntCast? : JValue → Option Int
  | .jnum n => some n
  | .jstr s => s.toInt?
  | _ => none

/-- Are all characters decimal digits? -/
def allDigits (cs : List Char) : Bool :=
  cs.all (fun ch => ch.isDigit)

/-- The `YYYY-MM-DD` calendar-date shape the API documents: four digits,
dash, two digits 01-12, dash, two digits 01-31. -/
def isIsoDate (s : String) : Bool :=
  match s.data with
  | [y1, y2, y3, y4, c1, m1, m2, c2, d1, d2] =>
    allDigits [y1, y2, y3, y4, m1, m2, d1, d2] && c1 == '-' && c2 == '-' &&
    (let mv := (m1.toNat - 48) * 10 + (m2.toNat - 48)
     let dv := (d1.toNat - 48) * 10 + (d2.toNat - 48)
     decide (1 ≤ mv) && decide (mv ≤ 12) && decide (1 ≤ dv) && decide (dv ≤ 31))
  | _ => false

/-- Contract model of the Postgres cast of a request parameter into a DATE
column: strings in the `YYYY-MM-DD` shape the API documents pass through,
everything else makes the statement throw.  (Real Postgres accepts further
date spellings; no claim depends on them.) -/
def pgDateCast? : JValue → Option String
  | .jstr s => if isIsoDate s then some s else none
  | _ => none

/-- Does row `r` conflict with key (`sid`, `c`, `d`) of the unique index
`attendance_unique_idx`? -/
def attKey (sid c : Int) (d : String) (r : AttendanceRow) : Bool :=
  r.student_id == sid && r.course_id == c && r.date == d

/-- The table effect of a successful upsert
`INSERT … ON CONFLICT (student_id, course_id, date) DO UPDATE SET present =
EXCLUDED.present, recorded_at = now()`: if a row with the key exists it is
updated in place, otherwise a fresh row is appended. -/
def upsertRows (att : List AttendanceRow) (nid : Nat) (sid c : Int)
    (d : String) (p : Bool) (now : Nat) : List AttendanceRow × Nat :=
  if att.any (attKey sid c d) then
    (att.map (fun r => if attKey sid c d r then
        { r with present := p, recorded_at := now } else r), nid)
  else
    (att ++ [⟨nid, sid, c, d, p, now⟩], nid + 1)

/-- The single upsert statement as executed by Postgres: the `course_id`
and `date` parameters are cast to their column types and the
`REFERENCES students(id)` / `REFERENCES courses(id)` constraints are
checked; any failure throws (`none`), which the handler's catch turns into
500 after ROLLBACK.  On success the table changes as in `upsertRows`. -/
def upsertAttendance (students : List Student) (courses : List Course)
    (att : List AttendanceRow) (nid : Nat) (sid : Int) (cid dt : JValue)
    (p : Bool) (now : Nat) : Option (List AttendanceRow × Nat) :=
  match pgIntCast? cid, pgDateCast? dt with
  | some c, some d =>
    if students.any (fun s => (s.id : Int) == sid) &&
        courses.any (fun co => (co.id : Int) == c) then
      some (upsertRows att nid sid c d p now)
    else none
  | _, _ => none

/-- Outcome of the record loop inside the transaction: a committed table
state, a badly-typed record (ROLLBACK, 400), or a thrown INSERT
(catch: ROLLBACK, 500). -/
inductive BatchResult where
  | ok (att : List AttendanceRow) (nid : Nat)
  | invalid
  | sqlError
deriving DecidableEq, Repr

/-- The `for (const r of records)` loop inside the transaction: each
iteration first validates the record's shape (`invalid` models the
ROLLBACK + 400 at the first badly-typed record) and then executes its
upsert, whose failure throws out of the loop (`sqlError`). -/
def processRecords (recs : List RecEntry) (students : List Student)
    (courses : List Course) (att : List AttendanceRow) (nid : Nat)
    (cid dt : JValue) (now : Nat) : BatchResult :=
  match recs with
  | [] => .ok att nid
  | r :: rest =>
    match r.student_id, r.present with
    | .jnum sid, .jbool p =>
      match upsertAttendance students courses att nid sid cid dt p now with
      | some st => processRecords rest students courses st.1 st.2 cid dt now
      | none => .sqlError
    | _, _ => .invalid

/-- The `POST /api/attendance` handler (after the admin/teacher role gate):
validates `course_id`, `date` and `records`, then runs the batch in one
transaction; a badly-typed record returns 400 and a thrown INSERT returns
500 'db error', both leaving the database exactly as it was. -/
def postAttendance (db : Db) (req : AttReq) (now : Nat) : AttResp × Db :=
  match req.records with
  | none => (.badRequest "course_id, date and records[] required", db)
  | some recs =>
    if !req.course_id.truthy || !req.date.truthy then
      (.badRequest "course_id, date and records[] required", db)
    else
      match processRecords recs db.students db.courses db.attendance
          db.nextAttendanceId req.course_id req.date now with
      | .invalid =>
        (.badRequest "each record must have student_id (number) and present (boolean)", db)
      | .sqlError => (.serverError "db error", db)
      | .ok att2 nid2 =>
        (.ok, { db with attendance := att2, nextAttendanceId := nid2 })

/-- No two attendance rows share the (student_id, course_id, date) key:
the invariant enforced by `attendance_unique_idx`. -/
def uniqueTriples (att : List AttendanceRow) : Prop :=
  att.Pairwise (fun r1 r2 =>
    ¬(r1.student_id = r2.student_id ∧ r1.course_id = r2.course_id ∧ r1.date = r2.date))

/-- Run a sequence of `POST /api/attendance` requests (each with its wall
clock time), keeping only the database effects. -/
def runAttendance (db : Db) (reqs : List (AttReq × Nat)) : Db :=
  reqs.foldl (fun d rn => (postAttendance d rn.1 rn.2).2) db

/-! ### bcrypt and JWT library contracts -/

/-- Contract model of `bcrypt.hash(password, SALT_ROUNDS)`: an injective
encoding of the password (the primitive itself is out of scope). -/
def bcryptHash (password : String) : String :=
  "$2b$10$" ++ password

/-- Contract model of `bcrypt.compare(password, hash)`. -/
def bcryptCompare (password hash : String) : Bool :=
  hash == bcryptHash password

/-- The payload `{ uid, role, student_id }` embedded in a session token. -/
structure TokenPayload where
  uid : Nat
  role : String
  student_id : Option Nat
deriving DecidableEq, Repr

/-- Contract model of a signed JWT: payload, signing secret, issue time and
lifetime in seconds. -/
structure Token where
  payload : TokenPayload
  secret : String
  iat : Nat
  expSeconds : Nat
deriving DecidableEq, Repr

/-- `jwt.verify(token, secret)` at wall-clock time `now`: succeeds exactly
when the token was signed with `secret` and has not expired. -/
def jwtVerify (t : Token) (secret : String) (now : Nat) : Option TokenPayload :=
  if t.secret == secret && now < t.iat + t.expSeconds then some t.payload else none

/-- JS `user.student_id || null`: a missing link or the (unreachable for
SERIAL ids) value 0 becomes null. -/
def jsOrNull (s : Option Nat) : Option Nat :=
  match s with
  | some n => if n = 0 then none else some n
  | none => none

/-- `signToken(user)`: signs `{ uid, role, student_id }` with an 8-hour
(`8 * 3600` seconds) expiry. -/
def signToken (u : User) (secret : String) (now : Nat) : Token :=
  ⟨⟨u.id, u.role, jsOrNull u.student_id⟩, secret, now, 8 * 3600⟩

/-! ### Auth middleware (`authenticate`, `authorize`) -/

/-- The `Authorization` header as the middleware sees it: absent, present
but not of the form `Bearer <token>` (including the empty string), a bearer
string that is not a token this server signed, or a signed token. -/
inductive HeaderVal where
  | notBearer (s : String)
  | bearerGarbage (s : String)
  | bearerSigned (t : Token)
deriving DecidableEq, Repr

/-- Outcome of the `authenticate` middleware. -/
inductive AuthOutcome where
  | unauthorized (msg : String)
  | authenticated (payload : TokenPayload)
deriving DecidableEq, Repr

/-- The `authenticate` middleware: 401 on a missing or non-Bearer header,
401 on a token that does not verify, otherwise attaches the payload. -/
def authenticate (hdr : Option HeaderVal) (secret : String) (now : Nat) :
    AuthOutcome :=
  match hdr with
  | none => .unauthorized "missing token"
  | some (.notBearer _) => .unauthorized "missing token"
  | some (.bearerGarbage _) => .unauthorized "invalid token"
  | some (.bearerSigned t) =>
    match jwtVerify t secret now with
    | some p => .authenticated p
    | none => .unauthorized "invalid token"

/-- Outcome of the role gate in front of a handler. -/
inductive GateOutcome where
  | unauthorized (msg : String)
  | forbidden (msg : String)
  | proceed (payload : TokenPayload)
deriving DecidableEq, Repr

/-- HTTP status of a gate outcome (`proceed` means the handler runs). -/
def GateOutcome.status : GateOutcome → Nat
  | .unauthorized _ => 401
  | .forbidden _ => 403
  | .proceed _ => 200

/-- The `authorize(allowedRoles)` middleware: 401 if no identity was
attached, pass-through when the allow-list is empty, 403 when the role is
not in a non-empty allow-list. -/
def authorize (allowed : List String) (user : Option TokenPayload) :
    GateOutcome :=
  match user with
  | none => .unauthorized "not authenticated"
  | some u =>
    if allowed.isEmpty then .proceed u
    else if allowed.contains u.role then .proceed u
    else .forbidden "forbidden"

/-- `authenticate` followed by `authorize(allowed)`, as composed on every
protected route. -/
def roleGate (hdr : Option HeaderVal) (secret : String) (now : Nat)
    (allowed : List String) : GateOutcome :=
  match authenticate hdr secret now with
  | .unauthorized m => .unauthorized m
  | .authenticated p => authorize allowed (some p)

/-! ### `POST /api/auth/login` -/

/-- Response of the login handler. -/
inductive LoginResp where
  | badRequest (msg : String)
  | unauthorized (msg : String)
  | ok (token : Token) (role : String) (uid : Nat) (student_id : Option Nat)
deriving DecidableEq, Repr

/-- HTTP status of a login response. -/
def LoginResp.status : LoginResp → Nat
  | .badRequest _ => 400
  | .unauthorized _ => 401
  | .ok _ _ _ _ => 200

/-- The `POST /api/auth/login` handler: 400 on a falsy username or
password, 401 when the username is unknown or the bcrypt comparison fails,
otherwise the signed token plus role, uid and student link. -/
def login (users : List User) (username password secret : String)
    (now : Nat) : LoginResp :=
  if username == "" || password == "" then
    .badRequest "username and password required"
  else
    match users.find? (fun u => u.username == username) with
    | none => .unauthorized "invalid credentials"
    | some u =>
      if !(bcryptCompare password u.password_hash) then
        .unauthorized "invalid credentials"
      else
        .ok (signToken u secret now) u.role u.id u.student_id

/-! ### `POST /api/auth/register` (admin only) -/

/-- Body of a register request; `student_name` is `none` when the field is
absent. -/
structure RegisterReq where
  username : String
  password : String
  role : String
  student_name : Option String
deriving DecidableEq, Repr

/-- Response of the register handler. -/
inductive RegisterResp where
  | badRequest (msg : String)
  | created (id : Nat) (username : String) (role : String)
      (student_id : Option Nat)
deriving DecidableEq, Repr

/-- JS truthiness of an optional string field. -/
def strTruthy : Option String → Bool
  | none => false
  | some s => s != ""

/-- The `POST /api/auth/register` handler (after the admin gate): validates
the body, then in one transaction optionally inserts a linked student row
and inserts the user row; a duplicate username raises the unique-constraint
error (23505), which rolls the transaction back (Postgres sequences stay
advanced) and returns 400 "username exists". -/
def register (db : Db) (req : RegisterReq) : RegisterResp × Db :=
  if req.username == "" || req.password == "" || req.role == "" then
    (.badRequest "username,password,role required", db)
  else if !((["admin", "teacher", "student"] : List String).contains req.role) then
    (.badRequest "invalid role", db)
  else if req.role == "student" && !(strTruthy req.student_name) then
    (.badRequest "student_name required for role student", db)
  else
    let sid : Option Nat := if req.role == "student" then some db.nextStudentId else none
    let db1 : Db :=
      if req.role == "student" then
        { db with
            students := db.students ++ [⟨db.nextStudentId, (req.student_name).getD ""⟩],
            nextStudentId := db.nextStudentId + 1 }
      else db
    if db1.users.any (fun u => u.username == req.username) then
      (.badRequest "username exists",
        { db with nextStudentId := db1.nextStudentId, nextUserId := db.nextUserId + 1 })
    else
      (.created db1.nextUserId req.username req.role sid,
        { db1 with
            users := db1.users ++
              [⟨db1.nextUserId, req.username, bcryptHash req.password, req.role, sid⟩],
            nextUserId := db1.nextUserId + 1 })

/-! ### Items endpoints -/

/-- Response of `POST /api/items`. -/
inductive ItemResp where
  | badRequest (msg : String)
  | created (row : Item)
deriving DecidableEq, Repr

/-- The `POST /api/items` handler: 400 on falsy text, otherwise inserts
and returns the created row. -/
def postItem (db : Db) (text : String) : ItemResp × Db :=
  if text == "" then (.badRequest "text required", db)
  else
    (.created ⟨db.nextItemId, text⟩,
      { db with items := db.items ++ [⟨db.nextItemId, text⟩],
                nextItemId := db.nextItemId + 1 })

/-! ### Students listing and the student-only attendance view -/

/-- Insert `a` into a list that is sorted by `key`, keeping it sorted. -/
def insertSortedBy {α : Type} (key : α → Nat) (a : α) : List α → List α
  | [] => [a]
  | b :: bs => if key a ≤ key b then a :: b :: bs else b :: insertSortedBy key a bs

/-- `ORDER BY key` of a row list (insertion sort). -/
def sortBy {α : Type} (key : α → Nat) (l : List α) : List α :=
  l.foldr (insertSortedBy key) []

/-- JS truthiness of the optional `student_id` of a token payload. -/
def natOptTruthy : Option Nat → Bool
  | none => false
  | some n => n != 0

/-- Response of `GET /api/students`. -/
inductive StudentsResp where
  | forbidden (msg : String)
  | rows (l : List Student)
deriving DecidableEq, Repr

/-- The `GET /api/students` handler: a student-role identity with no
(truthy) student link gets 403; a linked student gets only the row matching
their link; any other role gets all rows ordered by id. -/
def getStudents (db : Db) (user : TokenPayload) : StudentsResp :=
  if user.role == "student" then
    if !(natOptTruthy user.student_id) then .forbidden "no student profile"
    else .rows (db.students.filter (fun s => s.id == user.student_id.getD 0))
  else
    .rows (sortBy (fun s => s.id) db.students)

/-- Response of `GET /api/attendance/self` (rows are paired with the joined
course name; `serverError` is the catch branch for a thrown query, e.g. a
date that does not cast). -/
inductive SelfResp where
  | badRequest (msg : String)
  | serverError (msg : String)
  | rows (l : List (AttendanceRow × String))
deriving DecidableEq, Repr

/-- The `GET /api/attendance/self` handler (after the student role gate):
400 without a date, 400 without a (truthy) student link, otherwise the
caller's attendance rows for the date (cast to DATE; a failed cast throws
into the 500 catch) joined with course names. -/
def getAttendanceSelf (db : Db) (user : TokenPayload) (date : JValue) :
    SelfResp :=
  if !date.truthy then .badRequest "date required"
  else if !(natOptTruthy user.student_id) then
    .badRequest "student profile not linked"
  else
    match pgDateCast? date with
    | none => .serverError "db error"
    | some d =>
      .rows ((db.attendance.filter (fun a =>
          a.student_id == Int.ofNat (user.student_id.getD 0) && a.date == d)).filterMap
        (fun a => (db.courses.find?
            (fun c => (c.id : Int) == a.course_id)).map
          (fun c => (a, c.name))))

/-! ### `initDb`: schema creation and seeding -/

/-- Seed the welcome item when the `items` table is empty. -/
def seedItems (db : Db) : Db :=
  if db.items.isEmpty then
    { db with items := [⟨db.nextItemId, "Bienvenidos a Kubernetes demo"⟩],
              nextItemId := db.nextItemId + 1 }
  else db

/-- Seed the three demo students when the `students` table is empty. -/
def seedStudents (db : Db) : Db :=
  if db.students.isEmpty then
    { db with
        students := [⟨db.nextStudentId, "Alumno Demo 1"⟩,
                     ⟨db.nextStudentId + 1, "Alumno Demo 2"⟩,
                     ⟨db.nextStudentId + 2, "Alumno Demo 3"⟩],
        nextStudentId := db.nextStudentId + 3 }
  else db

/-- Seed the two demo courses when the `courses` table is empty. -/
def seedCourses (db : Db) : Db :=
  if db.courses.isEmpty then
    { db with
        courses := [⟨db.nextCourseId, "Matemáticas"⟩,
                    ⟨db.nextCourseId + 1, "Historia"⟩],
        nextCourseId := db.nextCourseId + 2 }
  else db

/-- `SELECT id FROM students ORDER BY id LIMIT 1` (0 when the table is
empty, which `initDb` never hits because students are seeded first). -/
def firstStudentId (students : List Student) : Nat :=
  (((sortBy (fun s => s.id) students).head?).map (fun s => s.id)).getD 0

/-- Seed the three demo users (admin, teacher, and a student linked to the
first student row) when the `users` table is empty. -/
def seedUsers (db : Db) : Db :=
  if db.users.isEmpty then
    { db with
        users := [⟨db.nextUserId, "admin", bcryptHash "adminpass", "admin", none⟩,
                  ⟨db.nextUserId + 1, "prof1", bcryptHash "teacherpass", "teacher", none⟩,
                  ⟨db.nextUserId + 2, "student1", bcryptHash "studentpass", "student",
                    some (firstStudentId db.students)⟩],
        nextUserId := db.nextUserId + 3 }
  else db

/-- `initDb`: ensures all tables exist (the `Db` model always carries every
table) and seeds items, students, courses and users, each only when the
corresponding table is empty, in the source's order. -/
def initDb (db : Db) : Db :=
  seedUsers (seedCourses (seedStudents (seedItems db)))

/-! ## Lemmas about the attendance upsert -/

theorem attKey_iff (sid c : Int) (d : String) (r : AttendanceRow) :
    attKey sid c d r = true ↔
      r.student_id = sid ∧ r.course_id = c ∧ r.date = d := by
  simp [attKey, and_assoc]

theorem upsertRows_unique (att : List AttendanceRow) (nid : Nat)
    (sid c : Int) (d : String) (p : Bool) (now : Nat)
    (h : uniqueTriples att) :
    uniqueTriples (upsertRows att nid sid c d p now).1 := by
  unfold upsertRows
  split
  · refine List.Pairwise.map _ ?_ h
    intro a b hab hk
    apply hab
    revert hk
    unfold uniqueTriples at *
    split <;> split <;> simp_all
  · rename_i hany
    rw [List.any_eq_true] at hany
    push_neg at hany
    unfold uniqueTriples
    rw [List.pairwise_append]
    refine ⟨h, by simp [uniqueTriples], ?_⟩
    intro a ha b hb
    simp only [List.mem_singleton] at hb
    subst hb
    intro hc
    exact absurd ((attKey_iff sid c d a).2 ⟨hc.1, hc.2.1, hc.2.2⟩)
      (by simpa using hany a ha)

theorem upsertRows_length (att : List AttendanceRow) (nid : Nat)
    (sid c : Int) (d : String) (p : Bool) (now : Nat)
    (h : ∃ r ∈ att, attKey sid c d r = true) :
    (upsertRows att nid sid c d p now).1.length = att.length := by
  unfold upsertRows
  rw [if_pos (List.any_eq_true.2 (by simpa using h))]
  simp

theorem upsertRows_lookup (att : List AttendanceRow) (nid : Nat)
    (sid c : Int) (d : String) (p : Bool) (now : Nat)
    (h : ∃ r ∈ att, attKey sid c d r = true) :
    ∀ r ∈ (upsertRows att nid sid c d p now).1,
      attKey sid c d r = true → r.present = p ∧ r.recorded_at = now := by
  unfold upsertRows
  rw [if_pos (List.any_eq_true.2 (by simpa using h))]
  intro r hr hk
  rw [List.mem_map] at hr
  obtain ⟨a, _, rfl⟩ := hr
  revert hk
  split <;> simp_all [attKey]

theorem upsertAttendance_some_unique (students : List Student)
    (courses : List Course) (att : List AttendanceRow) (nid : Nat)
    (sid : Int) (cid dt : JValue) (p : Bool) (now : Nat)
    (st : List AttendanceRow × Nat)
    (h : upsertAttendance students courses att nid sid cid dt p now = some st)
    (hu : uniqueTriples att) : uniqueTriples st.1 := by
  unfold upsertAttendance at h
  cases hci : pgIntCast? cid with
  | none =>
    rw [hci] at h
    simp at h
  | some c =>
    rw [hci] at h
    cases hdi : pgDateCast? dt with
    | none =>
      rw [hdi] at h
      simp at h
    | some d =>
      rw [hdi] at h
      simp only at h
      split at h
      · rw [Option.some.injEq] at h
        rw [← h]
        exact upsertRows_unique _ _ _ _ _ _ _ hu
      · simp at h

theorem processRecords_unique (recs : List RecEntry) :
    ∀ (students : List Student) (courses : List Course)
      (att : List AttendanceRow) (nid : Nat) (cid dt : JValue) (now : Nat)
      (att2 : List AttendanceRow) (nid2 : Nat),
      processRecords recs students courses att nid cid dt now = .ok att2 nid2 →
      uniqueTriples att → uniqueTriples att2 := by
  induction recs with
  | nil =>
    intro students courses att nid cid dt now att2 nid2 hp h
    simp only [processRecords, BatchResult.ok.injEq] at hp
    rw [← hp.1]
    exact h
  | cons r rest ih =>
    intro students courses att nid cid dt now att2 nid2 hp h
    obtain ⟨rsid, rp⟩ := r
    cases rsid <;> cases rp <;> simp only [processRecords] at hp <;>
      try exact absurd hp (by simp)
    rename_i sid p
    cases hup : upsertAttendance students courses att nid sid cid dt p now with
    | none =>
      rw [hup] at hp
      exact absurd hp (by simp)
    | some st =>
      rw [hup] at hp
      exact ih _ _ _ _ _ _ _ _ _ hp
        (upsertAttendance_some_unique _ _ _ _ _ _ _ _ _ _ hup h)

theorem postAttendance_unique (db : Db) (req : AttReq) (now : Nat)
    (h : uniqueTriples db.attendance) :
    uniqueTriples ((postAttendance db req now).2).attendance := by
  unfold postAttendance
  cases hrec : req.records with
  | none => exact h
  | some recs =>
    simp only
    split
    · exact h
    · cases hp : processRecords recs db.students db.courses db.attendance
          db.nextAttendanceId req.course_id req.date now with
      | ok att2 nid2 =>
        exact processRecords_unique recs _ _ _ _ _ _ _ _ _ hp h
      | invalid => exact h
      | sqlError => exact h

theorem runAttendance_unique (reqs : List (AttReq × Nat)) :
    ∀ db : Db, uniqueTriples db.attendance →
      uniqueTriples (runAttendance db reqs).attendance := by
  induction reqs with
  | nil => intro db h; exact h
  | cons rn rest ih =>
    intro db h
    exact ih _ (postAttendance_unique db rn.1 rn.2 h)

/-- C1: successful attendance writes never duplicate a
(student_id, course_id, date) key, and a write for a key that already has a
row (the request values casting to that key and passing the REFERENCES
checks, as a really stored row implies) succeeds and updates that row's
`present` and `recorded_at` in place (keeping the row count) instead of
inserting a second row. -/
theorem attendance_upsert_invariant (db : Db) (reqs : List (AttReq × Nat))
    (h : uniqueTriples db.attendance) :
    uniqueTriples (runAttendance db reqs).attendance ∧
    (∀ (sid c : Int) (d : String) (p : Bool) (now : Nat) (cid dt : JValue),
      cid.truthy = true → dt.truthy = true →
      pgIntCast? cid = some c → pgDateCast? dt = some d →
      (db.students.any (fun s => (s.id : Int) == sid)) = true →
      (db.courses.any (fun co => (co.id : Int) == c)) = true →
      (∃ r ∈ db.attendance, attKey sid c d r = true) →
      (postAttendance db ⟨cid, dt, some [⟨.jnum sid, .jbool p⟩]⟩ now).1 = .ok ∧
      ((postAttendance db ⟨cid, dt, some [⟨.jnum sid, .jbool p⟩]⟩ now).2).attendance.length
        = db.attendance.length ∧
      ∀ r ∈ ((postAttendance db ⟨cid, dt, some [⟨.jnum sid, .jbool p⟩]⟩ now).2).attendance,
        attKey sid c d r = true → r.present = p ∧ r.recorded_at = now) := by
  refine ⟨runAttendance_unique reqs db h, ?_⟩
  intro sid c d p now cid dt hct hdt hci hdi hfs hfc hex
  have hup : upsertAttendance db.students db.courses db.attendance
      db.nextAttendanceId sid cid dt p now
      = some (upsertRows db.attendance db.nextAttendanceId sid c d p now) := by
    unfold upsertAttendance
    simp only [hci, hdi]
    rw [hfs, hfc]
    rfl
  have hpost : postAttendance db ⟨cid, dt, some [⟨.jnum sid, .jbool p⟩]⟩ now
      = (.ok, { db with
          attendance := (upsertRows db.attendance db.nextAttendanceId
            sid c d p now).1,
          nextAttendanceId := (upsertRows db.attendance db.nextAttendanceId
            sid c d p now).2 }) := by
    unfold postAttendance
    simp [hct, hdt, processRecords, hup]
  rw [hpost]
  exact ⟨rfl, upsertRows_length _ _ _ _ _ _ _ hex,
    upsertRows_lookup _ _ _ _ _ _ _ hex⟩

/-- Witness for C1: a database holding student 7, course 1 and one
attendance row for (7, 1, "2024-05-06"), re-recorded with
`present := false`. -/
theorem attendance_upsert_invariant_witness :
    uniqueTriples (runAttendance
        { Db.empty with students := [⟨7, "Alumno"⟩], courses := [⟨1, "Curso"⟩],
                        attendance := [⟨1, 7, 1, "2024-05-06", true, 0⟩],
                        nextAttendanceId := 2 }
        [(⟨.jnum 1, .jstr "2024-05-06", some [⟨.jnum 7, .jbool false⟩]⟩, 9)]).attendance ∧
    (postAttendance
        { Db.empty with students := [⟨7, "Alumno"⟩], courses := [⟨1, "Curso"⟩],
                        attendance := [⟨1, 7, 1, "2024-05-06", true, 0⟩],
                        nextAttendanceId := 2 }
        ⟨.jnum 1, .jstr "2024-05-06", some [⟨.jnum 7, .jbool false⟩]⟩ 9).1 = .ok := by
  have h := attendance_upsert_invariant
    { Db.empty with students := [⟨7, "Alumno"⟩], courses := [⟨1, "Curso"⟩],
                    attendance := [⟨1, 7, 1, "2024-05-06", true, 0⟩],
                    nextAttendanceId := 2 }
    [(⟨.jnum 1, .jstr "2024-05-06", some [⟨.jnum 7, .jbool false⟩]⟩, 9)]
    (by simp [uniqueTriples])
  exact ⟨h.1, (h.2 7 1 "2024-05-06" false 9 (.jnum 1) (.jstr "2024-05-06")
    (by decide) (by decide) rfl rfl (by decide) (by decide) (by decide)).1⟩

/-! ## The all-or-nothing attendance batch -/

theorem processRecords_not_ok (recs : List RecEntry)
    (h : ∃ r ∈ recs, r.student_id.isNum = false ∨ r.present.isBool = false) :
    ∀ (students : List Student) (courses : List Course)
      (att : List AttendanceRow) (nid : Nat) (cid dt : JValue) (now : Nat),
      processRecords recs students courses att nid cid dt now = .invalid ∨
      processRecords recs students courses att nid cid dt now = .sqlError := by
  induction recs with
  | nil => simp at h
  | cons r rest ih =>
    intro students courses att nid cid dt now
    obtain ⟨rsid, rp⟩ := r
    rcases h with ⟨x, hx, hbad⟩
    rcases List.mem_cons.1 hx with rfl | hx2
    · cases rsid <;> cases rp
      all_goals first
        | exact Or.inl rfl
        | simp [JValue.isNum, JValue.isBool] at hbad
    · cases rsid <;> cases rp
      all_goals try exact Or.inl rfl
      rename_i sid p
      simp only [processRecords]
      cases hup : upsertAttendance students courses att nid sid cid dt p now with
      | none => exact Or.inr rfl
      | some st => exact ih ⟨x, hx2, hbad⟩ students courses st.1 st.2 cid dt now

theorem processRecords_invalid_of_fk (recs : List RecEntry)
    (students : List Student) (courses : List Course) (cid dt : JValue)
    (c : Int) (d : String) (hci : pgIntCast? cid = some c)
    (hdi : pgDateCast? dt = some d)
    (hfc : (courses.any (fun co => (co.id : Int) == c)) = true) :
    ∀ (att : List AttendanceRow) (nid : Nat) (now : Nat),
      (∃ r ∈ recs, r.student_id.isNum = false ∨ r.present.isBool = false) →
      (∀ r ∈ recs, r.student_id.isNum = true →
        (students.any (fun s => (s.id : Int) == r.student_id.asInt)) = true) →
      processRecords recs students courses att nid cid dt now = .invalid := by
  induction recs with
  | nil =>
    intro att nid now hbad _
    simp at hbad
  | cons r rest ih =>
    intro att nid now hbad hfk
    obtain ⟨rsid, rp⟩ := r
    cases rsid <;> cases rp
    all_goals try rfl
    rename_i sid p
    have hs : (students.any (fun s => (s.id : Int) == sid)) = true := by
      have := hfk ⟨.jnum sid, .jbool p⟩ (List.mem_cons_self _ _) rfl
      simpa [JValue.asInt] using this
    have hup : upsertAttendance students courses att nid sid cid dt p now
        = some (upsertRows att nid sid c d p now) := by
      unfold upsertAttendance
      simp only [hci, hdi]
      rw [hs, hfc]
      rfl
    simp only [processRecords, hup]
    refine ih _ _ _ ?_ ?_
    · rcases hbad with ⟨x, hx, hb⟩
      rcases List.mem_cons.1 hx with rfl | hx2
      · simp [JValue.isNum, JValue.isBool] at hb
      · exact ⟨x, hx2, hb⟩
    · intro x hx2 hn
      exact hfk x (List.mem_cons_of_mem _ hx2) hn

/-- C2 counterexample: on the empty database (no students, no courses) the
batch's first, well-shaped record's INSERT hits the REFERENCES
constraints, so the handler answers 500 'db error' — not the 400 the claim
asserts for every batch containing a badly-typed entry.  The table is
still left unchanged. -/
theorem attendance_invalid_record_500_counterexample :
    (postAttendance Db.empty
      ⟨.jnum 1, .jstr "2024-05-06", some [⟨.jnum 7, .jbool true⟩, ⟨.jstr "8", .jbool true⟩]⟩
      5).1 = .serverError "db error" ∧
    (postAttendance Db.empty
      ⟨.jnum 1, .jstr "2024-05-06", some [⟨.jnum 7, .jbool true⟩, ⟨.jstr "8", .jbool true⟩]⟩
      5).1.status ≠ 400 ∧
    (postAttendance Db.empty
      ⟨.jnum 1, .jstr "2024-05-06", some [⟨.jnum 7, .jbool true⟩, ⟨.jstr "8", .jbool true⟩]⟩
      5).2 = Db.empty := by
  exact ⟨rfl, by decide, rfl⟩

/-- C2 (amended): an attendance batch holding a record whose `student_id`
is not a number or whose `present` is not a boolean never commits: the
table is left untouched and the response is an error — 400, or 500 when an
earlier valid-shaped record's INSERT throws; when the batch's casts succeed
and every valid-shaped record satisfies the REFERENCES checks, it is
exactly 400. -/
theorem attendance_invalid_record_rolls_back (db : Db) (req : AttReq)
    (now : Nat) (recs : List RecEntry) (hr : req.records = some recs)
    (hbad : ∃ r ∈ recs, r.student_id.isNum = false ∨ r.present.isBool = false) :
    ((postAttendance db req now).1.status = 400 ∨
      (postAttendance db req now).1.status = 500) ∧
    (postAttendance db req now).2 = db ∧
    (∀ (c : Int) (d : String), pgIntCast? req.course_id = some c →
      pgDateCast? req.date = some d →
      (db.courses.any (fun co => (co.id : Int) == c)) = true →
      (∀ r ∈ recs, r.student_id.isNum = true →
        (db.students.any (fun s => (s.id : Int) == r.student_id.asInt)) = true) →
      (postAttendance db req now).1.status = 400) := by
  unfold postAttendance
  rw [hr]
  simp only
  split
  · exact ⟨Or.inl rfl, rfl, fun _ _ _ _ _ _ => rfl⟩
  · rcases processRecords_not_ok recs hbad db.students db.courses db.attendance
        db.nextAttendanceId req.course_id req.date now with hpo | hpo <;>
      rw [hpo]
    · exact ⟨Or.inl rfl, rfl, fun _ _ _ _ _ _ => rfl⟩
    · refine ⟨Or.inr rfl, rfl, ?_⟩
      intro c d hci hdi hfc hfk
      have hinv := processRecords_invalid_of_fk recs db.students db.courses
        req.course_id req.date c d hci hdi hfc db.attendance db.nextAttendanceId
        now hbad hfk
      rw [hinv] at hpo
      cases hpo

/-- Witness for C2: with student 7 and course 1 present, the valid first
record's insert succeeds and the string-typed second record aborts the
whole batch with 400, rolling the first row back. -/
theorem attendance_invalid_record_rolls_back_witness :
    (postAttendance
      { Db.empty with students := [⟨7, "Alumno"⟩], courses := [⟨1, "Curso"⟩] }
      ⟨.jnum 1, .jstr "2024-05-06", some [⟨.jnum 7, .jbool true⟩, ⟨.jstr "8", .jbool true⟩]⟩
      5).1.status = 400 ∧
    (postAttendance
      { Db.empty with students := [⟨7, "Alumno"⟩], courses := [⟨1, "Curso"⟩] }
      ⟨.jnum 1, .jstr "2024-05-06", some [⟨.jnum 7, .jbool true⟩, ⟨.jstr "8", .jbool true⟩]⟩
      5).2 = { Db.empty with students := [⟨7, "Alumno"⟩], courses := [⟨1, "Curso"⟩] } := by
  have h := attendance_invalid_record_rolls_back
    { Db.empty with students := [⟨7, "Alumno"⟩], courses := [⟨1, "Curso"⟩] }
    ⟨.jnum 1, .jstr "2024-05-06", some [⟨.jnum 7, .jbool true⟩, ⟨.jstr "8", .jbool true⟩]⟩
    5 _ rfl (by decide)
  exact ⟨h.2.2 1 "2024-05-06" rfl rfl (by decide) (by decide), h.2.1⟩

/-- C9: an attendance request with truthy `course_id` and `date` and an
empty `records` array commits as a no-op: it answers ok and changes
nothing. -/
theorem attendance_empty_batch_noop (db : Db) (req : AttReq) (now : Nat)
    (hc : req.course_id.truthy = true) (hd : req.date.truthy = true)
    (hr : req.records = some []) :
    postAttendance db req now = (.ok, db) := by
  unfold postAttendance
  rw [hr]
  simp [hc, hd, processRecords]

/-- Witness for C9 at a concrete empty batch. -/
theorem attendance_empty_batch_noop_witness :
    postAttendance Db.empty ⟨.jnum 2, .jstr "2024-05-06", some []⟩ 7
      = (.ok, Db.empty) :=
  attendance_empty_batch_noop Db.empty _ 7 (by decide) (by decide) rfl

/-! ## Login -/

/-- A token signed at time `now` verifies at time `now` (the 8-hour window
is open) and decodes to the signed payload. -/
theorem jwtVerify_signToken (u : User) (secret : String) (now : Nat) :
    jwtVerify (signToken u secret now) secret now
      = some ⟨u.id, u.role, jsOrNull u.student_id⟩ := by
  unfold jwtVerify signToken
  simp

/-- C3 counterexample: against an empty users table no user carries the
given (empty) username, yet the handler answers 400, not 401, because the
falsy-field guard fires first. -/
theorem login_missing_field_counterexample :
    login [] "" "x" "sec" 0 = .badRequest "username and password required" ∧
    (login [] "" "x" "sec" 0).status ≠ 401 := by
  decide

/-- C3 (amended): for login requests whose username and password are both
non-empty, an unknown username or a hash mismatch answers 401, and correct
credentials answer a signed token with an 8-hour expiry that decodes to the
user's id, role and (non-zero) student link. -/
theorem login_spec (users : List User) (username password secret : String)
    (now : Nat) (hu : username ≠ "") (hp : password ≠ "") :
    ((∀ u ∈ users, u.username ≠ username) →
      login users username password secret now
        = .unauthorized "invalid credentials") ∧
    (∀ u, users.find? (fun v => v.username == username) = some u →
      u.password_hash ≠ bcryptHash password →
      login users username password secret now
        = .unauthorized "invalid credentials") ∧
    (∀ u, users.find? (fun v => v.username == username) = some u →
      u.password_hash = bcryptHash password →
      login users username password secret now
        = .ok (signToken u secret now) u.role u.id u.student_id ∧
      (signToken u secret now).expSeconds = 8 * 3600 ∧
      (u.student_id ≠ some 0 →
        jwtVerify (signToken u secret now) secret now
          = some ⟨u.id, u.role, u.student_id⟩)) := by
  have hguard : (username == "" || password == "") = false := by
    simp [hu, hp]
  refine ⟨?_, ?_, ?_⟩
  · intro hnone
    have hfind : users.find? (fun v => v.username == username) = none := by
      rw [List.find?_eq_none]
      intro u hu2
      simpa using hnone u hu2
    unfold login
    rw [hguard, hfind]
    rfl
  · intro u hfind hhash
    have hcmp : bcryptCompare password u.password_hash = false := by
      simpa [bcryptCompare] using hhash
    unfold login
    rw [hguard, hfind]
    simp only [hcmp]
    rfl
  · intro u hfind hhash
    have hcmp : bcryptCompare password u.password_hash = true := by
      simp [bcryptCompare, hhash]
    refine ⟨?_, rfl, ?_⟩
    · unfold login
      rw [hguard, hfind]
      simp only [hcmp]
      rfl
    · intro hz
      rw [jwtVerify_signToken]
      cases hsid : u.student_id with
      | none => simp [jsOrNull]
      | some n =>
        have hn : n ≠ 0 := by
          intro h0
          exact hz (by rw [hsid, h0])
        simp [jsOrNull, hn]

/-- Witness for C3: one user, wrong password then right password. -/
theorem login_spec_witness :
    login [⟨1, "admin", bcryptHash "adminpass", "admin", none⟩]
        "admin" "x" "sec" 3 = .unauthorized "invalid credentials" ∧
    login [⟨1, "admin", bcryptHash "adminpass", "admin", none⟩]
        "admin" "adminpass" "sec" 3
      = .ok (signToken ⟨1, "admin", bcryptHash "adminpass", "admin", none⟩ "sec" 3)
          "admin" 1 none ∧
    jwtVerify (signToken ⟨1, "admin", bcryptHash "adminpass", "admin", none⟩ "sec" 3)
        "sec" 3 = some ⟨1, "admin", none⟩ := by
  have hbad := (login_spec
    [⟨1, "admin", bcryptHash "adminpass", "admin", none⟩]
    "admin" "x" "sec" 3 (by decide) (by decide)).2.1
    ⟨1, "admin", bcryptHash "adminpass", "admin", none⟩ (by decide) (by decide)
  have hok := (login_spec
    [⟨1, "admin", bcryptHash "adminpass", "admin", none⟩]
    "admin" "adminpass" "sec" 3 (by decide) (by decide)).2.2
    ⟨1, "admin", bcryptHash "adminpass", "admin", none⟩ (by decide) rfl
  exact ⟨hbad, hok.1, hok.2.2 (by decide)⟩

/-! ## The auth middleware pair -/

/-- C5: on a protected route, a missing or unverifiable bearer token
answers 401; a verified token whose role is outside a non-empty allow-list
answers 403; and an empty allow-list admits every authenticated caller. -/
theorem role_gate_spec (secret : String) (now : Nat) (allowed : List String) :
    (roleGate none secret now allowed).status = 401 ∧
    (∀ s, (roleGate (some (.notBearer s)) secret now allowed).status = 401) ∧
    (∀ s, (roleGate (some (.bearerGarbage s)) secret now allowed).status = 401) ∧
    (∀ t, jwtVerify t secret now = none →
      (roleGate (some (.bearerSigned t)) secret now allowed).status = 401) ∧
    (∀ t p, jwtVerify t secret now = some p → allowed ≠ [] →
      allowed.contains p.role = false →
      roleGate (some (.bearerSigned t)) secret now allowed
        = .forbidden "forbidden") ∧
    (∀ t p, jwtVerify t secret now = some p →
      roleGate (some (.bearerSigned t)) secret now [] = .proceed p) := by
  refine ⟨rfl, fun s => rfl, fun s => rfl, ?_, ?_, ?_⟩
  · intro t hv
    simp only [roleGate, authenticate, hv]
    rfl
  · intro t p hv hne hc
    simp only [roleGate, authenticate, hv, authorize]
    rw [if_neg (by simpa [List.isEmpty_iff] using hne), hc]
    rfl
  · intro t p hv
    simp only [roleGate, authenticate, hv, authorize]
    rfl

/-- Witness for C5: a student token against an admin-only route and an
open route. -/
theorem role_gate_spec_witness :
    (roleGate none "s" 0 ["admin"]).status = 401 ∧
    roleGate (some (.bearerSigned ⟨⟨1, "student", none⟩, "s", 0, 28800⟩))
        "s" 0 ["admin"] = .forbidden "forbidden" ∧
    roleGate (some (.bearerSigned ⟨⟨1, "student", none⟩, "s", 0, 28800⟩))
        "s" 0 [] = .proceed ⟨1, "student", none⟩ := by
  refine ⟨(role_gate_spec "s" 0 ["admin"]).1, ?_, ?_⟩
  · exact (role_gate_spec "s" 0 ["admin"]).2.2.2.2.1 _ ⟨1, "student", none⟩
      (by decide) (by decide) (by decide)
  · exact (role_gate_spec "s" 0 []).2.2.2.2.2 _ ⟨1, "student", none⟩ (by decide)

/-! ## Students visibility -/

theorem mem_insertSortedBy {α : Type} (key : α → Nat) (a x : α)
    (l : List α) : x ∈ insertSortedBy key a l ↔ x = a ∨ x ∈ l := by
  induction l with
  | nil => simp [insertSortedBy]
  | cons b bs ih =>
    unfold insertSortedBy
    split
    · simp [List.mem_cons]
    · simp only [List.mem_cons, ih]
      tauto

theorem mem_sortBy {α : Type} (key : α → Nat) (l : List α) (x : α) :
    x ∈ sortBy key l ↔ x ∈ l := by
  induction l with
  | nil => simp [sortBy]
  | cons b bs ih =>
    show x ∈ insertSortedBy key b (sortBy key bs) ↔ _
    rw [mem_insertSortedBy, ih]
    simp [List.mem_cons]

/-- C6: a student-role identity with a (non-zero) student link sees only
the student rows whose id equals the link; admin- and teacher-role
identities receive every student row (ordered by id). -/
theorem students_visibility (db : Db) (user : TokenPayload) :
    (∀ sid : Nat, user.role = "student" → user.student_id = some sid →
      sid ≠ 0 →
      getStudents db user
        = .rows (db.students.filter (fun s => s.id == sid)) ∧
      ∀ s ∈ db.students.filter (fun s => s.id == sid), s.id = sid) ∧
    (user.role = "admin" ∨ user.role = "teacher" →
      getStudents db user = .rows (sortBy (fun s => s.id) db.students) ∧
      ∀ s, s ∈ sortBy (fun s => s.id) db.students ↔ s ∈ db.students) := by
  constructor
  · intro sid hrole hsid hz
    constructor
    · unfold getStudents
      rw [hrole]
      simp [natOptTruthy, hsid, hz]
    · intro s hs
      rw [List.mem_filter] at hs
      simpa using hs.2
  · intro hrole
    constructor
    · unfold getStudents
      rcases hrole with h | h <;> rw [h] <;> rfl
    · intro s
      exact mem_sortBy _ _ _

/-- Witness for C6: two students; a linked student sees one row, a teacher
sees both. -/
theorem students_visibility_witness :
    getStudents { Db.empty with students := [⟨1, "a"⟩, ⟨2, "b"⟩] }
        ⟨5, "student", some 2⟩ = .rows [⟨2, "b"⟩] ∧
    getStudents { Db.empty with students := [⟨2, "b"⟩, ⟨1, "a"⟩] }
        ⟨6, "teacher", none⟩ = .rows [⟨1, "a"⟩, ⟨2, "b"⟩] := by
  constructor
  · have h := (students_visibility
      { Db.empty with students := [⟨1, "a"⟩, ⟨2, "b"⟩] }
      ⟨5, "student", some 2⟩).1 2 rfl rfl (by decide)
    exact h.1.trans (by rfl)
  · have h := (students_visibility
      { Db.empty with students := [⟨2, "b"⟩, ⟨1, "a"⟩] }
      ⟨6, "teacher", none⟩).2 (Or.inr rfl)
    exact h.1.trans (by rfl)

/-! ## Unlinked student profiles -/

/-- C10: a valid student-role identity with no student link gets 403
"no student profile" from the students listing and 400
"student profile not linked" from the self-attendance view (given a date);
neither returns data rows. -/
theorem unlinked_student_profile (db : Db) (user : TokenPayload)
    (date : JValue) (hrole : user.role = "student")
    (hsid : user.student_id = none) (hd : date.truthy = true) :
    getStudents db user = .forbidden "no student profile" ∧
    getAttendanceSelf db user date = .badRequest "student profile not linked" := by
  constructor
  · unfold getStudents
    rw [hrole]
    simp [natOptTruthy, hsid]
  · unfold getAttendanceSelf
    simp [hd, natOptTruthy, hsid]

/-- Witness for C10 at a concrete unlinked student identity. -/
theorem unlinked_student_profile_witness :
    getStudents Db.empty ⟨5, "student", none⟩ = .forbidden "no student profile" ∧
    getAttendanceSelf Db.empty ⟨5, "student", none⟩ (.jstr "2024-05-06")
      = .badRequest "student profile not linked" :=
  unlinked_student_profile Db.empty ⟨5, "student", none⟩ (.jstr "2024-05-06")
    rfl rfl (by decide)

/-! ## Items -/

/-- C7: posting an item with empty text answers 400 and inserts nothing;
posting text "x" answers the created row with the next assigned id. -/
theorem items_post_spec (db : Db) :
    postItem db "" = (.badRequest "text required", db) ∧
    (postItem db "x").1 = .created ⟨db.nextItemId, "x"⟩ ∧
    (postItem db "x").2.items = db.items ++ [⟨db.nextItemId, "x"⟩] :=
  ⟨rfl, rfl, rfl⟩

/-- Witness for C7 on the empty database. -/
theorem items_post_spec_witness :
    postItem Db.empty "" = (.badRequest "text required", Db.empty) ∧
    (postItem Db.empty "x").1 = .created ⟨1, "x"⟩ :=
  ⟨(items_post_spec Db.empty).1, (items_post_spec Db.empty).2.1⟩

/-! ## Register -/

/-- C4 counterexample: with user "admin" present, a register request for
username "admin" with an invalid role answers 400 "invalid role", not
400 "username exists" as the claim requires for every duplicate-username
request. -/
theorem register_duplicate_username_counterexample :
    (register
      { Db.empty with users := [⟨1, "admin", "h", "admin", none⟩], nextUserId := 2 }
      ⟨"admin", "pw", "superuser", none⟩).1 = .badRequest "invalid role" ∧
    RegisterResp.badRequest "invalid role" ≠ .badRequest "username exists" := by
  decide

/-- C4 (amended): an otherwise-valid register request (non-empty fields, a
legal role, a student name when role is student) whose username already
exists answers 400 "username exists" and leaves both the users and the
students tables unchanged — the student row inserted in the transaction is
rolled back. -/
theorem register_duplicate_username (db : Db) (req : RegisterReq)
    (hu : req.username ≠ "") (hp : req.password ≠ "")
    (hrole : req.role = "admin" ∨ req.role = "teacher" ∨ req.role = "student")
    (hsn : req.role = "student" → strTruthy req.student_name = true)
    (hdup : ∃ u ∈ db.users, u.username = req.username) :
    (register db req).1 = .badRequest "username exists" ∧
    (register db req).2.users = db.users ∧
    (register db req).2.students = db.students := by
  have hg1 : (req.username == "" || req.password == "" || req.role == "") = false := by
    rcases hrole with h | h | h <;> simp [hu, hp, h]
  have hg2 : ((["admin", "teacher", "student"] : List String).contains req.role)
      = true := by
    rcases hrole with h | h | h <;> simp [h]
  have hg3 : (req.role == "student" && !(strTruthy req.student_name)) = false := by
    by_cases h : req.role = "student"
    · simp [h, hsn h]
    · simp [h]
  obtain ⟨w, hw, hwname⟩ := hdup
  have hany : (db.users.any (fun u => u.username == req.username)) = true :=
    List.any_eq_true.2 ⟨w, hw, by simp [hwname]⟩
  unfold register
  rw [hg1, hg2, hg3]
  by_cases hst : req.role = "student"
  · simp only [hst, beq_self_eq_true, if_true, if_pos, Bool.not_true,
      Bool.false_eq_true, if_false, hany]
    exact ⟨trivial, trivial, trivial⟩
  · have hne : (req.role == "student") = false := by simp [hst]
    simp only [hne, Bool.false_eq_true, if_false, hany]
    exact ⟨rfl, rfl, rfl⟩

/-- Witness for C4: registering a second "admin" as a student rolls the
new student row back. -/
theorem register_duplicate_username_witness :
    (register
      { Db.empty with users := [⟨1, "admin", "h", "admin", none⟩], nextUserId := 2 }
      ⟨"admin", "pw", "student", some "Nuevo"⟩).1 = .badRequest "username exists" ∧
    (register
      { Db.empty with users := [⟨1, "admin", "h", "admin", none⟩], nextUserId := 2 }
      ⟨"admin", "pw", "student", some "Nuevo"⟩).2.users
      = [⟨1, "admin", "h", "admin", none⟩] ∧
    (register
      { Db.empty with users := [⟨1, "admin", "h", "admin", none⟩], nextUserId := 2 }
      ⟨"admin", "pw", "student", some "Nuevo"⟩).2.students = [] := by
  have h := register_duplicate_username
    { Db.empty with users := [⟨1, "admin", "h", "admin", none⟩], nextUserId := 2 }
    ⟨"admin", "pw", "student", some "Nuevo"⟩
    (by decide) (by decide) (Or.inr (Or.inr rfl)) (fun _ => rfl) (by decide)
  exact ⟨h.1, h.2.1, h.2.2⟩

/-! ## initDb idempotence and seeding -/

theorem seedItems_students (db : Db) : (seedItems db).students = db.students := by
  unfold seedItems
  split <;> rfl

theorem seedItems_courses (db : Db) : (seedItems db).courses = db.courses := by
  unfold seedItems
  split <;> rfl

theorem seedItems_users (db : Db) : (seedItems db).users = db.users := by
  unfold seedItems
  split <;> rfl

theorem seedStudents_items (db : Db) : (seedStudents db).items = db.items := by
  unfold seedStudents
  split <;> rfl

theorem seedStudents_courses (db : Db) : (seedStudents db).courses = db.courses := by
  unfold seedStudents
  split <;> rfl

theorem seedStudents_users (db : Db) : (seedStudents db).users = db.users := by
  unfold seedStudents
  split <;> rfl

theorem seedCourses_items (db : Db) : (seedCourses db).items = db.items := by
  unfold seedCourses
  split <;> rfl

theorem seedCourses_students (db : Db) : (seedCourses db).students = db.students := by
  unfold seedCourses
  split <;> rfl

theorem seedCourses_users (db : Db) : (seedCourses db).users = db.users := by
  unfold seedCourses
  split <;> rfl

theorem seedUsers_items (db : Db) : (seedUsers db).items = db.items := by
  unfold seedUsers
  split <;> rfl

theorem seedUsers_students (db : Db) : (seedUsers db).students = db.students := by
  unfold seedUsers
  split <;> rfl

theorem seedUsers_courses (db : Db) : (seedUsers db).courses = db.courses := by
  unfold seedUsers
  split <;> rfl

theorem seedItems_ne (db : Db) : (seedItems db).items ≠ [] := by
  unfold seedItems
  split
  · simp
  · rename_i h
    simpa [List.isEmpty_iff] using h

theorem seedStudents_ne (db : Db) : (seedStudents db).students ≠ [] := by
  unfold seedStudents
  split
  · simp
  · rename_i h
    simpa [List.isEmpty_iff] using h

theorem seedCourses_ne (db : Db) : (seedCourses db).courses ≠ [] := by
  unfold seedCourses
  split
  · simp
  · rename_i h
    simpa [List.isEmpty_iff] using h

theorem seedUsers_ne (db : Db) : (seedUsers db).users ≠ [] := by
  unfold seedUsers
  split
  · simp
  · rename_i h
    simpa [List.isEmpty_iff] using h

theorem seedItems_id (db : Db) (h : db.items ≠ []) : seedItems db = db := by
  unfold seedItems
  rw [if_neg (by simpa [List.isEmpty_iff] using h)]

theorem seedStudents_id (db : Db) (h : db.students ≠ []) : seedStudents db = db := by
  unfold seedStudents
  rw [if_neg (by simpa [List.isEmpty_iff] using h)]

theorem seedCourses_id (db : Db) (h : db.courses ≠ []) : seedCourses db = db := by
  unfold seedCourses
  rw [if_neg (by simpa [List.isEmpty_iff] using h)]

theorem seedUsers_id (db : Db) (h : db.users ≠ []) : seedUsers db = db := by
  unfold seedUsers
  rw [if_neg (by simpa [List.isEmpty_iff] using h)]

theorem initDb_items (db : Db) : (initDb db).items = (seedItems db).items := by
  unfold initDb
  rw [seedUsers_items, seedCourses_items, seedStudents_items]

theorem initDb_students (db : Db) :
    (initDb db).students = (seedStudents (seedItems db)).students := by
  unfold initDb
  rw [seedUsers_students, seedCourses_students]

theorem initDb_courses (db : Db) :
    (initDb db).courses = (seedCourses (seedStudents (seedItems db))).courses := by
  unfold initDb
  rw [seedUsers_courses]

theorem initDb_fixed (db : Db) (h1 : db.items ≠ []) (h2 : db.students ≠ [])
    (h3 : db.courses ≠ []) (h4 : db.users ≠ []) : initDb db = db := by
  unfold initDb
  rw [seedItems_id db h1, seedStudents_id db h2, seedCourses_id db h3,
    seedUsers_id db h4]

/-- C8: `initDb` is idempotent — a second run changes nothing — and each
group of seed rows (1 welcome item, 3 demo students, 2 demo courses,
3 demo users) is inserted exactly when the corresponding table is empty. -/
theorem initDb_idempotent (db : Db) :
    initDb (initDb db) = initDb db ∧
    (db.items ≠ [] → (initDb db).items = db.items) ∧
    (db.students ≠ [] → (initDb db).students = db.students) ∧
    (db.courses ≠ [] → (initDb db).courses = db.courses) ∧
    (db.users ≠ [] → (initDb db).users = db.users) ∧
    (db.items = [] → (initDb db).items.length = 1) ∧
    (db.students = [] → (initDb db).students.length = 3) ∧
    (db.courses = [] → (initDb db).courses.length = 2) ∧
    (db.users = [] → (initDb db).users.length = 3) := by
  refine ⟨?_, ?_, ?_, ?_, ?_, ?_, ?_, ?_, ?_⟩
  · exact initDb_fixed (initDb db)
      (by rw [initDb_items]; exact seedItems_ne db)
      (by rw [initDb_students]; exact seedStudents_ne _)
      (by rw [initDb_courses]; exact seedCourses_ne _)
      (seedUsers_ne _)
  · intro h
    rw [initDb_items, seedItems_id db h]
  · intro h
    have hs : (seedItems db).students = db.students := seedItems_students db
    rw [initDb_students, seedStudents_id _ (by rw [hs]; exact h), hs]
  · intro h
    have hc : (seedStudents (seedItems db)).courses = db.courses := by
      rw [seedStudents_courses, seedItems_courses]
    rw [initDb_courses, seedCourses_id _ (by rw [hc]; exact h), hc]
  · intro h
    have hu : (seedCourses (seedStudents (seedItems db))).users = db.users := by
      rw [seedCourses_users, seedStudents_users, seedItems_users]
    show (seedUsers _).users = db.users
    rw [seedUsers_id _ (by rw [hu]; exact h), hu]
  · intro h
    rw [initDb_items]
    unfold seedItems
    rw [if_pos (by simp [h])]
    rfl
  · intro h
    rw [initDb_students]
    unfold seedStudents
    rw [if_pos (by simp [seedItems_students, h])]
    rfl
  · intro h
    rw [initDb_courses]
    unfold seedCourses
    rw [if_pos (by simp [seedStudents_courses, seedItems_courses, h])]
    rfl
  · intro h
    show (seedUsers _).users.length = 3
    unfold seedUsers
    rw [if_pos (by simp [seedCourses_users, seedStudents_users, seedItems_users, h])]
    rfl

/-- Witness for C8: the empty database initializes to a fixed point with
all four seed groups present. -/
theorem initDb_idempotent_witness :
    initDb (initDb Db.empty) = initDb Db.empty ∧
    (initDb Db.empty).items.length = 1 ∧
    (initDb Db.empty).students.length = 3 ∧
    (initDb Db.empty).courses.length = 2 ∧
    (initDb Db.empty).users.length = 3 := by
  have h := initDb_idempotent Db.empty
  exact ⟨h.1, h.2.2.2.2.2.1 rfl, h.2.2.2.2.2.2.1 rfl, h.2.2.2.2.2.2.2.1 rfl,
    h.2.2.2.2.2.2.2.2 rfl⟩

end KubeDemo
